import Mathlib

/-!
# Verification of the `debug` Terraform provider

Shallow embedding of `npezzotti/terraform-provider-debug` (Go) in Lean 4.

Each resource / data source operation is embedded as a pure function from
its configuration model plus the outcomes of its external calls (framework
`Get` calls, `time.ParseDuration`, dial results, file-system results, ...)
to an `OpResult`: whether an error diagnostic was added, the state written
to the response (if any), and the externally visible side effects
performed.  Schema declarations, type-name metadata, the OOM-kill
allocation loop, the plan-artifact chunked write loop and the CPU-hog
fan-out are embedded separately where a claim needs their internals.

Go `int64`/`int32` values are modelled as `Int`; Go byte values as `Nat`
(with explicit `< 256` bounds where they matter).  Markdown descriptions,
validators and plan modifiers are omitted from the schema embedding: the
claims below are about attribute names, kinds and nesting only.
-/

namespace DebugProvider

/-- Externally visible side effects an operation can perform, beyond its
own response: creating/writing files (`os.Create` / `File.Write` in
`plan_artifact`), changing the process-wide GOMAXPROCS setting
(`runtime.GOMAXPROCS` in `cpu_hog`), and spawning a subprocess
(`exec.Command` in the command resource). -/
inductive Effect where
  | fileCreate (name : String)
  | fileWrite (name : String) (bytes : Int)
  | setGOMAXPROCS (n : Int)
  | execProcess (argv : List String)
  deriving DecidableEq, Repr

/-- Result of one CRUD operation: whether `resp.Diagnostics` holds an
error when the operation returns, the model written by `resp.State.Set`
(or `none` when the operation returns without a state write), and the
external effects performed. -/
structure OpResult (σ : Type) where
  hasError : Bool
  stateWrite : Option σ
  effects : List Effect
  deriving DecidableEq, Repr

/-- `types.Bool` values: `none` models null/unknown.  `ValueBool` returns
`false` on null/unknown. -/
def valueBool (b : Option Bool) : Bool := b.getD false

/-! ## FailureResource (`internal/provider/failure_resource.go`) -/

/-- `FailureResourceModel`: the four attributes of `debug_failure`. -/
structure FailureResourceModel where
  failOnCreate : Option Bool
  failOnUpdate : Option Bool
  failOnDestroy : Option Bool
  id : String
  deriving DecidableEq, Repr

/-- `FailureResource.Create`.  `getOk` is the outcome of
`req.Plan.Get` (false means the framework returned error diagnostics). -/
def failureResourceCreate (getOk : Bool) (data : FailureResourceModel) :
    OpResult FailureResourceModel :=
  if !getOk then ⟨true, none, []⟩
  else if valueBool data.failOnCreate then ⟨true, none, []⟩
  else ⟨false, some data, []⟩

/-- `FailureResource.Read`: copies state back on success. -/
def failureResourceRead (getOk : Bool) (data : FailureResourceModel) :
    OpResult FailureResourceModel :=
  if !getOk then ⟨true, none, []⟩
  else ⟨false, some data, []⟩

/-- `FailureResource.Update`. -/
def failureResourceUpdate (getOk : Bool) (data : FailureResourceModel) :
    OpResult FailureResourceModel :=
  if !getOk then ⟨true, none, []⟩
  else if valueBool data.failOnUpdate then ⟨true, none, []⟩
  else ⟨false, some data, []⟩

/-- `FailureResource.Delete`: never writes state; fails on
`fail_on_destroy`. -/
def failureResourceDelete (getOk : Bool) (data : FailureResourceModel) :
    OpResult FailureResourceModel :=
  if !getOk then ⟨true, none, []⟩
  else if valueBool data.failOnDestroy then ⟨true, none, []⟩
  else ⟨false, none, []⟩

/-- C3: the failure resource fails exactly on demand: with a successful
plan/state read, Create errors (and writes nothing) iff `fail_on_create`,
Update iff `fail_on_update`, Delete iff `fail_on_destroy`; with the flag
false, Create and Update copy the planned data into state and Delete
succeeds. -/
theorem failureResource_fails_iff_flag (data : FailureResourceModel) :
    (((failureResourceCreate true data).hasError = true ∧
        (failureResourceCreate true data).stateWrite = none) ↔
      valueBool data.failOnCreate = true) ∧
    (((failureResourceUpdate true data).hasError = true ∧
        (failureResourceUpdate true data).stateWrite = none) ↔
      valueBool data.failOnUpdate = true) ∧
    ((failureResourceDelete true data).hasError = true ↔
      valueBool data.failOnDestroy = true) ∧
    (valueBool data.failOnCreate = false →
      (failureResourceCreate true data).hasError = false ∧
      (failureResourceCreate true data).stateWrite = some data) ∧
    (valueBool data.failOnUpdate = false →
      (failureResourceUpdate true data).hasError = false ∧
      (failureResourceUpdate true data).stateWrite = some data) ∧
    (valueBool data.failOnDestroy = false →
      (failureResourceDelete true data).hasError = false) := by
  unfold failureResourceCreate failureResourceUpdate failureResourceDelete
  rcases h1 : valueBool data.failOnCreate <;>
    rcases h2 : valueBool data.failOnUpdate <;>
    rcases h3 : valueBool data.failOnDestroy <;>
      simp [h1, h2, h3]

/-- Witness for C3 at concrete inputs: both a failing and a succeeding
configuration. -/
theorem failureResource_fails_iff_flag_witness :
    ((failureResourceCreate true
        ⟨some true, some false, none, "aaaaaaaaaa"⟩).hasError = true) ∧
    ((failureResourceCreate true
        ⟨some false, none, none, "aaaaaaaaaa"⟩).stateWrite =
      some ⟨some false, none, none, "aaaaaaaaaa"⟩) := by
  refine ⟨?_, ?_⟩
  · exact ((failureResource_fails_iff_flag
      ⟨some true, some false, none, "aaaaaaaaaa"⟩).1.mpr (by decide)).1
  · exact ((failureResource_fails_iff_flag
      ⟨some false, none, none, "aaaaaaaaaa"⟩).2.2.2.1 (by decide)).2

/-! ## SleepResource (`internal/provider/sleep_resource.go`) -/

/-- `SleepResourceModel`.  `types.String.ValueString` returns `""` on
null/unknown, so string attributes are modelled as plain `String`. -/
structure SleepResourceModel where
  id : String
  duration : String
  updateDuration : String
  destroyDuration : String
  deriving DecidableEq, Repr

/-- `SleepResource.Create`.  `parse` is the outcome of
`time.ParseDuration(data.Duration)` (`none` = parse error), `sleepOk`
the outcome of `sleep(ctx, duration)` (`false` = context cancelled),
`now` the RFC3339 rendering of `time.Now().UTC()`. -/
def sleepResourceCreate (getOk : Bool) (data : SleepResourceModel)
    (parse : Option Int) (sleepOk : Bool) (now : String) :
    OpResult SleepResourceModel :=
  if !getOk then ⟨true, none, []⟩
  else match parse with
    | none => ⟨true, none, []⟩
    | some _ =>
      if !sleepOk then ⟨true, none, []⟩
      else ⟨false, some { data with id := now }, []⟩

/-- `SleepResource.Read`: empty body, no diagnostics, no state write. -/
def sleepResourceRead : OpResult SleepResourceModel := ⟨false, none, []⟩

/-- `SleepResource.Update`: sleeps per the *state's* `update_duration`
(skipped when empty), then writes the plan into state. -/
def sleepResourceUpdate (planGetOk stateGetOk : Bool)
    (plan state : SleepResourceModel) (parse : Option Int)
    (sleepOk : Bool) : OpResult SleepResourceModel :=
  if !planGetOk then ⟨true, none, []⟩
  else if !stateGetOk then ⟨true, none, []⟩
  else if state.updateDuration = "" then ⟨false, some plan, []⟩
  else match parse with
    | none => ⟨true, none, []⟩
    | some _ =>
      if !sleepOk then ⟨true, none, []⟩
      else ⟨false, some plan, []⟩

/-- `SleepResource.Delete`: sleeps per `destroy_duration` (skipped when
empty); never writes state. -/
def sleepResourceDelete (getOk : Bool) (data : SleepResourceModel)
    (parse : Option Int) (sleepOk : Bool) : OpResult SleepResourceModel :=
  if !getOk then ⟨true, none, []⟩
  else if data.destroyDuration = "" then ⟨false, none, []⟩
  else match parse with
    | none => ⟨true, none, []⟩
    | some _ =>
      if !sleepOk then ⟨true, none, []⟩
      else ⟨false, none, []⟩

/-! ## SleepDataSource (`internal/provider/sleep_data_source.go`) -/

/-- `SleepDataSourceModel`: the single `duration` attribute. -/
structure SleepDataSourceModel where
  duration : String
  deriving DecidableEq, Repr

/-- `SleepDataSource.Read`: parses the duration and sleeps.  Note the
success path ends after the sleep with **no** `resp.State.Set` call. -/
def sleepDataSourceRead (getOk : Bool) (_data : SleepDataSourceModel)
    (parse : Option Int) (sleepOk : Bool) : OpResult SleepDataSourceModel :=
  if !getOk then ⟨true, none, []⟩
  else match parse with
    | none => ⟨true, none, []⟩
    | some _ =>
      if !sleepOk then ⟨true, none, []⟩
      else ⟨false, none, []⟩

/-! ## CPUHogDataSource (`internal/provider/cpu_hog_data_source.go`) -/

/-- `CPUHogDataSourceModel`.  `types.Int32.ValueInt32` returns `0` on
null/unknown, so the core count is a plain `Int`. -/
structure CPUHogDataSourceModel where
  numCores : Int
  duration : String
  deriving DecidableEq, Repr

/-- `CPUHogDataSource.Read` (response part): validates the core count
against `runtime.NumCPU()` (`numCPU`), parses the duration, then calls
`runtime.GOMAXPROCS` — a process-wide setting — before the fan-out.  The
success path ends at `wg.Wait()` with **no** `resp.State.Set` call.  The
goroutine fan-out itself is modelled separately below (`hogCPULoop`). -/
def cpuHogDataSourceRead (getOk : Bool) (data : CPUHogDataSourceModel)
    (numCPU : Int) (parse : Option Int) : OpResult CPUHogDataSourceModel :=
  if !getOk then ⟨true, none, []⟩
  else if data.numCores < 0 then ⟨true, none, []⟩
  else
    let numCores := if data.numCores = 0 then numCPU else data.numCores
    if numCPU < numCores then ⟨true, none, []⟩
    else match parse with
      | none => ⟨true, none, []⟩
      | some _ => ⟨false, none, [.setGOMAXPROCS numCores]⟩

/-! ## OOMKillDataSource (`internal/provider/oom_kill_data_source.go`) -/

/-- `OOMKillDataSourceModel`.  `types.Int64.ValueInt64` returns `0` on
null/unknown. -/
structure OOMKillDataSourceModel where
  memory : Int
  blockSize : Int
  deriving DecidableEq, Repr

/-- One allocated block: `make([]byte, size)` filled with
`block[j] = byte(j % 256)`. -/
def oomKillBlock (size : Int) : List Nat :=
  (List.range size.toNat).map (fun j => j % 256)

/-- The allocation loop of `OOMKillDataSource.Read` for
`numBlocksToAllocate ≠ -1`: iteration `i` allocates a block of
`lastBlockSize` bytes when `i == numBlocksToAllocate-1` and `blockSize`
bytes otherwise. -/
def oomKillBlocks (numBlocks lastBlockSize blockSize : Int) :
    List (List Nat) :=
  (List.range numBlocks.toNat).map
    (fun (i : Nat) =>
      oomKillBlock (if (i : Int) = numBlocks - 1 then lastBlockSize else blockSize))

/-- `OOMKillDataSource.Read`: validates `memory` (positive or the `-1`
infinite sentinel) and `block_size` (non-negative; `0`/unset defaults to
100 MiB), computes the block plan, and runs the allocation loop.  The
result is `none` when `memory = -1`: the loop then never terminates
(infinite allocation until the OOM kill this data source exists to
provoke).  There is **no** `resp.State.Set` on the terminating success
path.  The Go `int64` division/modulo truncate toward zero, which agrees
with Lean's `/` and `%` on the validated (positive) operands reached
here. -/
def oomKillDataSourceRead (getOk : Bool) (data : OOMKillDataSourceModel) :
    Option (OpResult OOMKillDataSourceModel × List (List Nat)) :=
  if !getOk then some (⟨true, none, []⟩, [])
  else
    let totalBytes := data.memory
    if totalBytes ≤ 0 ∧ totalBytes ≠ -1 then some (⟨true, none, []⟩, [])
    else
      let blockSize0 := data.blockSize
      if blockSize0 < 0 then some (⟨true, none, []⟩, [])
      else
        let blockSize := if blockSize0 ≤ 0 then 100 * 1024 * 1024 else blockSize0
        if totalBytes = -1 then none
        else
          let numBlocks0 := totalBytes / blockSize
          let rem := totalBytes % blockSize
          let numBlocks := if 0 < rem then numBlocks0 + 1 else numBlocks0
          let lastBlockSize := if 0 < rem then rem else blockSize
          some (⟨false, none, []⟩, oomKillBlocks numBlocks lastBlockSize blockSize)

/-! ## Byte-level encoders used by the provider

`file_content` computes `hex.EncodeToString(sha256.Sum256(content))` and
`base64.StdEncoding.EncodeToString(content)`; the command resource
computes a hex-encoded SHA-256 id.  The encoders are embedded here
byte-for-byte; SHA-256 itself is Go standard-library code outside this
repository, so operations that hash are parameterized by the digest
function. -/

/-- The RFC 4648 standard base64 alphabet used by
`base64.StdEncoding`. -/
def base64Alphabet : List Char :=
  "ABCDEFGHIJKLMNOPQRSTUVWXYZabcdefghijklmnopqrstuvwxyz0123456789+/".data

/-- Sextet value → base64 character. -/
def base64EncodeChar (n : Nat) : Char := base64Alphabet.getD n 'A'

/-- base64 character → sextet value (`none` for characters outside the
alphabet, `'='` included). -/
def base64DecodeChar (c : Char) : Option Nat :=
  base64Alphabet.findIdx? (fun x => x = c)

/-- `base64.StdEncoding.EncodeToString`: 3 input bytes become 4 output
characters; a 1- or 2-byte tail is padded with `'='`.  Bit shifts on
bytes are written as division/multiplication by powers of two. -/
def base64Encode : List Nat → List Char
  | [] => []
  | [a] =>
    [base64EncodeChar (a / 4), base64EncodeChar (a % 4 * 16), '=', '=']
  | [a, b] =>
    [base64EncodeChar (a / 4), base64EncodeChar (a % 4 * 16 + b / 16),
     base64EncodeChar (b % 16 * 4), '=']
  | a :: b :: c :: rest =>
    base64EncodeChar (a / 4) :: base64EncodeChar (a % 4 * 16 + b / 16) ::
    base64EncodeChar (b % 16 * 4 + c / 64) :: base64EncodeChar (c % 64) ::
    base64Encode rest

/-- `base64.StdEncoding` decoding: consumes 4-character groups, the last
of which may carry `'='` padding; anything else is rejected. -/
def base64Decode : List Char → Option (List Nat)
  | [] => some []
  | c0 :: c1 :: c2 :: c3 :: rest =>
    match base64DecodeChar c0, base64DecodeChar c1 with
    | some s0, some s1 =>
      if c2 = '=' ∧ c3 = '=' ∧ rest = [] then
        some [s0 * 4 + s1 / 16]
      else if c3 = '=' ∧ rest = [] then
        match base64DecodeChar c2 with
        | some s2 => some [s0 * 4 + s1 / 16, s1 % 16 * 16 + s2 / 4]
        | none => none
      else
        match base64DecodeChar c2, base64DecodeChar c3, base64Decode rest with
        | some s2, some s3, some tail =>
          some ((s0 * 4 + s1 / 16) :: (s1 % 16 * 16 + s2 / 4) ::
                (s2 % 4 * 64 + s3) :: tail)
        | _, _, _ => none
    | _, _ => none
  | _ => none

/-- The lowercase hexadecimal digits used by `hex.EncodeToString`. -/
def hexDigits : List Char := "0123456789abcdef".data

/-- `hex.EncodeToString`: each byte becomes two lowercase hex
characters, high nibble first. -/
def hexEncode : List Nat → List Char
  | [] => []
  | b :: rest =>
    hexDigits.getD (b / 16) '0' :: hexDigits.getD (b % 16) '0' :: hexEncode rest

/-- Inverse of `hexEncode` (`none` on non-hex input or odd length). -/
def hexDecode : List Char → Option (List Nat)
  | [] => some []
  | c0 :: c1 :: rest =>
    match hexDigits.findIdx? (fun x => x = c0),
        hexDigits.findIdx? (fun x => x = c1), hexDecode rest with
    | some h, some l, some tail => some ((h * 16 + l) :: tail)
    | _, _, _ => none
  | _ => none

/-! ## FileContentDataSource (`internal/provider/file_content_data_source.go`) -/

/-- Outcome of `os.Stat`. -/
inductive StatResult where
  | okFile (size : Int)
  | okDir
  | errNotExist
  | errOther
  deriving DecidableEq, Repr

/-- `FileContentDataSourceModel`.  A Go string is a byte sequence;
`content` holds the raw file bytes, `content_base64` and
`content_sha256` the derived encodings. -/
structure FileContentDataSourceModel where
  filename : String
  content : List Nat
  contentBase64 : List Char
  contentSHA256 : List Char
  deriving DecidableEq, Repr

/-- `FileContentDataSource.Read`: stats the file (rejecting missing
paths and directories), reads it, and stores the content together with
its hex-encoded SHA-256 digest and base64 encoding.  `sha256` is the
`crypto/sha256.Sum256` digest function (Go standard library),
`readResult` the outcome of `os.ReadFile`. -/
def fileContentDataSourceRead (sha256 : List Nat → List Nat)
    (getOk : Bool) (filename : String) (stat : StatResult)
    (readResult : Option (List Nat)) : OpResult FileContentDataSourceModel :=
  if !getOk then ⟨true, none, []⟩
  else match stat with
    | .errNotExist => ⟨true, none, []⟩
    | .errOther => ⟨true, none, []⟩
    | .okDir => ⟨true, none, []⟩
    | .okFile _ =>
      match readResult with
      | none => ⟨true, none, []⟩
      | some content =>
        ⟨false,
         some { filename := filename, content := content,
                contentBase64 := base64Encode content,
                contentSHA256 := hexEncode (sha256 content) }, []⟩

/-! ## DNSLookupDataSource (`src/unnamed/part_000`) -/

/-- `DNSLookupDataSourceModel`. -/
structure DNSLookupDataSourceModel where
  hostname : String
  result : List String
  deriving DecidableEq, Repr

/-- `DNSLookupDataSource.Read`.  Note: the code appends the diagnostics
of `req.Config.Get` but — unlike every other operation — does **not**
check `HasError` before proceeding; on a successful `net.LookupIP`
(`lookup = some ips`) it reaches the final `resp.State.Set` even when
the configuration read failed. -/
def dnsLookupDataSourceRead (getOk : Bool) (hostname : String)
    (lookup : Option (List String)) : OpResult DNSLookupDataSourceModel :=
  match lookup with
  | none => ⟨true, none, []⟩
  | some ips =>
    ⟨!getOk, some { hostname := hostname, result := ips }, []⟩

/-! ## TCPProbeDataSource (`src/internal/provider/oom_kill_data_source.go`, second unit) -/

/-- `TCPProbeDataSourceModel`. -/
structure TCPProbeDataSourceModel where
  host : String
  port : Int
  timeout : Int
  useIPv4 : Option Bool
  useIPv6 : Option Bool
  reachable : Option Bool
  deriving DecidableEq, Repr

/-- The `network` string passed to `DialContext`: `"tcp"` plus `"4"`
and/or `"6"` per the flags. -/
def tcpProbeNetwork (useIPv4 useIPv6 : Option Bool) : String :=
  (if valueBool useIPv4 then "tcp" ++ "4" else "tcp") ++
    (if valueBool useIPv6 then "6" else "")

/-- `TCPProbeDataSource.Read`: dials `host:port` with the configured
timeout (defaulting to 5 s when unset).  `reachable` is pre-set to
`true`; on a dial error an error diagnostic is added and `reachable`
becomes `false` — and the final `resp.State.Set` still runs
unconditionally, so the error path **does** write state. -/
def tcpProbeDataSourceRead (getOk : Bool) (data : TCPProbeDataSourceModel)
    (dialOk : Bool) : OpResult TCPProbeDataSourceModel :=
  if !getOk then ⟨true, none, []⟩
  else
    ⟨!dialOk, some { data with reachable := some dialOk }, []⟩

/-! ## FailureDataSource (`internal/provider/failure_data_source.go`) -/

/-- `FailureDataSourceModel`: empty. -/
structure FailureDataSourceModel where
  deriving DecidableEq, Repr

/-- `FailureDataSource.Read`: always adds an error diagnostic (after a
successful config read) and never writes state. -/
def failureDataSourceRead (getOk : Bool) : OpResult FailureDataSourceModel :=
  if !getOk then ⟨true, none, []⟩
  else ⟨true, none, []⟩

/-! ## EnvDataSource (`internal/provider/environment_variables_data_source.go`) -/

/-- `EnvDataSourceModel`.  The Go `map[string]string` result is modelled
as the association list in insertion order. -/
structure EnvDataSourceModel where
  environmentVariables : List String
  result : List (String × String)
  deriving DecidableEq, Repr

/-- `strings.SplitN(env, "=", 2)` filtering of one environment entry:
entries without `'='` are skipped (with a warning, not an error). -/
def envSplitEntry (s : String) : Option (String × String) :=
  match s.splitOn "=" with
  | [] => none
  | [_] => none
  | k :: rest => some (k, String.intercalate "=" rest)

/-- `EnvDataSource.Read`: with a non-empty filter, looks up each named
variable (missing ones produce warnings and are skipped); otherwise
splits every entry of `os.Environ()`.  Warnings are not errors, so the
state write at the end always runs once the config read succeeded. -/
def envDataSourceRead (getOk : Bool) (filter : List String)
    (lookupEnv : String → Option String) (environ : List String) :
    OpResult EnvDataSourceModel :=
  if !getOk then ⟨true, none, []⟩
  else
    let result :=
      if filter.length > 0 then
        filter.filterMap (fun v => (lookupEnv v).map (fun val => (v, val)))
      else
        environ.filterMap envSplitEntry
    ⟨false, some { environmentVariables := filter, result := result }, []⟩

/-! ## SystemInfoDataSource (`internal/provider/system_info_data_source.go`) -/

/-- `PlatformInfo` (nested object). -/
structure PlatformInfo where
  platform : String
  platformFamily : String
  platformVersion : String
  kernelVersion : String
  kernelArch : String
  deriving DecidableEq, Repr

/-- `DiskInfo` (nested object). -/
structure DiskInfo where
  total : Int
  used : Int
  free : Int
  deriving DecidableEq, Repr

/-- `ProcInfo` (nested object). -/
structure ProcInfo where
  uid : Int
  gid : Int
  pid : Int
  ppid : Int
  deriving DecidableEq, Repr

/-- `SystemInfoDataSourceModel`.  `platform_info`, `disk_info` and
`proc_info` are `types.Object` values built with
`types.ObjectValueFrom`. -/
structure SystemInfoDataSourceModel where
  hostname : String
  os : String
  platformInfo : PlatformInfo
  numCPUs : Int
  memoryTotal : Int
  diskInfo : DiskInfo
  procInfo : ProcInfo
  home : String
  path : String
  workingDir : String
  deriving DecidableEq, Repr

/-- The external introspection results `SystemInfoDataSource.Read`
gathers (`gopsutil` host/cpu/mem/disk, `os.Getwd`, `PATH`,
`os.UserHomeDir`, process ids); each `Option` is `none` on the
corresponding call error. -/
structure SystemInfoEnv where
  hostInfo : Option (String × String × PlatformInfo)
  cpuCounts : Option Int
  memTotal : Option Int
  workingDir : Option String
  diskUsage : Option DiskInfo
  pathVar : Option String
  procInfo : ProcInfo
  homeDir : Option String

/-- `SystemInfoDataSource.Read`: each failing lookup adds an error
diagnostic and returns; on full success the assembled model is written
to state.  (`types.ObjectValueFrom` cannot fail on these fixed shapes;
its diagnostics branches are therefore not reachable.) -/
def systemInfoDataSourceRead (getOk : Bool) (env : SystemInfoEnv) :
    OpResult SystemInfoDataSourceModel :=
  if !getOk then ⟨true, none, []⟩
  else match env.hostInfo with
    | none => ⟨true, none, []⟩
    | some (hostname, osName, platformInfo) =>
      match env.cpuCounts with
      | none => ⟨true, none, []⟩
      | some counts =>
        match env.memTotal with
        | none => ⟨true, none, []⟩
        | some memTotal =>
          match env.workingDir with
          | none => ⟨true, none, []⟩
          | some workingDir =>
            match env.diskUsage with
            | none => ⟨true, none, []⟩
            | some diskInfo =>
              match env.pathVar with
              | none => ⟨true, none, []⟩
              | some path =>
                match env.homeDir with
                | none => ⟨true, none, []⟩
                | some home =>
                  ⟨false,
                   some { hostname := hostname, os := osName,
                          platformInfo := platformInfo, numCPUs := counts,
                          memoryTotal := memTotal, diskInfo := diskInfo,
                          procInfo := env.procInfo, home := home,
                          path := path, workingDir := workingDir }, []⟩

/-! ## PlanArtifactDataSource (`src/internal/provider/http_get_resource.go`, second unit) -/

/-- `chunkSize` in `PlanArtifactDataSource.Read`: 64 KiB. -/
def planArtifactChunkSize : Int := 64 * 1024

/-- Size of the chunk written by one loop iteration: the remainder when
it is smaller than a full chunk. -/
def chunkBytes (fileSize written : Int) : Int :=
  if fileSize - written < planArtifactChunkSize then fileSize - written
  else planArtifactChunkSize

/-- The chunked write loop of `PlanArtifactDataSource.Read`, starting at
`written` bytes already written and iteration index `i`.  Returns the
chunk sizes successfully written and whether the loop completed;
`failAt = some j` models `rand.Read` or `File.Write` failing at
iteration `j` (the operation then adds an error diagnostic and
returns). -/
def planArtifactWriteLoop (fileSize : Int) (failAt : Option Nat)
    (written : Int) (i : Nat) : List Int × Bool :=
  if h : written < fileSize then
    if failAt = some i then ([], false)
    else
      let r := planArtifactWriteLoop fileSize failAt
        (written + chunkBytes fileSize written) (i + 1)
      (chunkBytes fileSize written :: r.1, r.2)
  else ([], true)
termination_by (fileSize - written).toNat
decreasing_by
  simp only [chunkBytes, planArtifactChunkSize]
  split <;> omega

/-- `PlanArtifactDataSourceModel`; `id` is the hex-encoded SHA-256 of
the file. -/
structure PlanArtifactDataSourceModel where
  fileSize : Int
  fileName : String
  id : List Char
  deriving DecidableEq, Repr

/-- Outcome of the initial `os.Stat` in `PlanArtifactDataSource.Read`. -/
inductive PlanStat where
  | okExisting (size : Int)
  | errNotExist
  | errOther
  deriving DecidableEq, Repr

/-- External outcomes of `PlanArtifactDataSource.Read`:
`existingContent` / `createdContent` are the bytes `hashFile` consumes
(`none` models an `io.Copy` error), `failAt` a failing loop iteration. -/
structure PlanArtifactEnv where
  stat : PlanStat
  openOk : Bool
  existingContent : Option (List Nat)
  createOk : Bool
  failAt : Option Nat
  seekOk : Bool
  createdContent : Option (List Nat)

/-- `PlanArtifactDataSource.Read`: if the named file exists its size and
hash are stored; otherwise (after rejecting non-positive sizes) the file
is created and filled chunk by chunk with random bytes, and the written
size and hash are stored.  `sha256` is the standard-library digest,
`base` is `filepath.Base`. -/
def planArtifactDataSourceRead (sha256 : List Nat → List Nat)
    (base : String → String) (getOk : Bool) (fileSize : Int)
    (fileName : String) (env : PlanArtifactEnv) :
    OpResult PlanArtifactDataSourceModel :=
  if !getOk then ⟨true, none, []⟩
  else match env.stat with
    | .errOther => ⟨true, none, []⟩
    | .okExisting size =>
      if !env.openOk then ⟨true, none, []⟩
      else match env.existingContent with
        | none => ⟨true, none, []⟩
        | some bytes =>
          ⟨false,
           some { fileSize := size, fileName := base fileName,
                  id := hexEncode (sha256 bytes) }, []⟩
    | .errNotExist =>
      if fileSize ≤ 0 then ⟨true, none, []⟩
      else if !env.createOk then ⟨true, none, []⟩
      else
        let loop := planArtifactWriteLoop fileSize env.failAt 0 0
        let effects := Effect.fileCreate fileName ::
          loop.1.map (Effect.fileWrite fileName)
        if !loop.2 then ⟨true, none, effects⟩
        else
          let written := loop.1.sum
          if !env.seekOk then ⟨true, none, effects⟩
          else match env.createdContent with
            | none => ⟨true, none, effects⟩
            | some bytes =>
              ⟨false,
               some { fileSize := written, fileName := base fileName,
                      id := hexEncode (sha256 bytes) }, effects⟩

/-! ## HTTPGetResource (`internal/provider/http_get_resource.go`, first unit) -/

/-- `HTTPGetResourceModel`.  `response_body` is `types.StringNull` for
an empty body (`none` here). -/
structure HTTPGetResourceModel where
  url : String
  headers : List (String × Option String)
  timeout : Int
  responseBody : Option String
  responseStatusCode : Int
  responseHeaders : List (String × String)
  deriving DecidableEq, Repr

/-- `HTTPGetResource.Create`: builds the request, performs the GET, and
stores status code, first-value-per-key response headers and body.
`doResult` is the `http.Client.Do` outcome (status code and raw
response headers), `readAll` the `io.ReadAll` outcome on the body. -/
def httpGetResourceCreate (getOk newReqOk : Bool)
    (data : HTTPGetResourceModel)
    (doResult : Option (Int × List (String × List String)))
    (readAll : Option String) : OpResult HTTPGetResourceModel :=
  if !getOk then ⟨true, none, []⟩
  else if !newReqOk then ⟨true, none, []⟩
  else match doResult with
    | none => ⟨true, none, []⟩
    | some (status, rawHeaders) =>
      let headerElements := rawHeaders.filterMap
        (fun kv => kv.2.head?.map (fun v => (kv.1, v)))
      match readAll with
      | none => ⟨true, none, []⟩
      | some body =>
        ⟨false,
         some { data with
                responseStatusCode := status
                responseHeaders := headerElements
                responseBody := if body.length = 0 then none else some body },
         []⟩

/-- `HTTPGetResource.Read`: copies state back on success. -/
def httpGetResourceRead (getOk : Bool) (data : HTTPGetResourceModel) :
    OpResult HTTPGetResourceModel :=
  if !getOk then ⟨true, none, []⟩ else ⟨false, some data, []⟩

/-- `HTTPGetResource.Update`: writes the plan into state on success
(without re-issuing the request). -/
def httpGetResourceUpdate (getOk : Bool) (data : HTTPGetResourceModel) :
    OpResult HTTPGetResourceModel :=
  if !getOk then ⟨true, none, []⟩ else ⟨false, some data, []⟩

/-- `HTTPGetResource.Delete`: empty body. -/
def httpGetResourceDelete : OpResult HTTPGetResourceModel := ⟨false, none, []⟩

/-! ## CommandResource (`src/internal/provider/system_info_data_source.go`, second unit) -/

/-- UTF-8 bytes of a Go string. -/
def strBytes (s : String) : List Nat := s.toUTF8.toList.map UInt8.toNat

/-- `CommandResourceModel`.  `create_command` is `none` when the
`types.List` is null/unknown; the computed attributes are `none` while
unset. -/
structure CommandResourceModel where
  id : Option (List Char)
  createCommand : Option (List String)
  stderr : Option String
  stdout : Option String
  exitCode : Option Int
  deriving DecidableEq, Repr

/-- `CommandResource.Create`: when `create_command` is set, the id is
the hex SHA-256 of the NUL-joined argv, the command is executed
(`exec.CommandContext` + `Run`), and its output captured; a run error
(start failure or non-zero exit) adds an error diagnostic and returns
without a state write.  When `create_command` is null/unknown the
command block is skipped and the plan is written as-is. -/
def commandResourceCreate (sha256 : List Nat → List Nat)
    (getOk toListOk elementsOk : Bool) (data : CommandResourceModel)
    (runOk : Bool) (stdout stderr : String) (exitCode : Int) :
    OpResult CommandResourceModel :=
  if !getOk then ⟨true, none, []⟩
  else if !toListOk then ⟨true, none, []⟩
  else match data.createCommand with
    | none => ⟨false, some data, []⟩
    | some parts =>
      if !elementsOk then ⟨true, none, []⟩
      else
        let idString := String.intercalate (String.singleton (Char.ofNat 0)) parts
        let id := hexEncode (sha256 (strBytes idString))
        if !runOk then ⟨true, none, [.execProcess parts]⟩
        else
          ⟨false,
           some { data with
                  id := some id,
                  stdout := some stdout,
                  stderr := some stderr,
                  exitCode := some exitCode },
           [.execProcess parts]⟩

/-- `CommandResource.Read`: empty body. -/
def commandResourceRead : OpResult CommandResourceModel := ⟨false, none, []⟩

/-- `CommandResource.Update`: empty body. -/
def commandResourceUpdate : OpResult CommandResourceModel := ⟨false, none, []⟩

/-- `CommandResource.Delete`: empty body. -/
def commandResourceDelete : OpResult CommandResourceModel := ⟨false, none, []⟩

/-! ## Provider metadata and registration (`src/unnamed/part_002`) -/

/-- `DebugProvider.Metadata`: `resp.TypeName = "debug"`. -/
def debugProviderTypeName : String := "debug"

/-- `FailureResource.Metadata`. -/
def failureResourceTypeName (p : String) : String := p ++ "_failure"

/-- `SleepResource.Metadata`. -/
def sleepResourceTypeName (p : String) : String := p ++ "_sleep"

/-- `CommandResource.Metadata`. -/
def commandResourceTypeName (p : String) : String := p ++ "_command"

/-- `HTTPGetResource.Metadata`. -/
def httpGetResourceTypeName (p : String) : String := p ++ "_http_get"

/-- `PlanArtifactDataSource.Metadata`. -/
def planArtifactDataSourceTypeName (p : String) : String := p ++ "_plan_artifact"

/-- `OOMKillDataSource.Metadata`. -/
def oomKillDataSourceTypeName (p : String) : String := p ++ "_oom_kill"

/-- `CPUHogDataSource.Metadata`. -/
def cpuHogDataSourceTypeName (p : String) : String := p ++ "_cpu_hog"

/-- `EnvDataSource.Metadata`. -/
def envDataSourceTypeName (p : String) : String := p ++ "_environment_variables"

/-- `DNSLookupDataSource.Metadata`. -/
def dnsLookupDataSourceTypeName (p : String) : String := p ++ "_dns_lookup"

/-- `TCPProbeDataSource.Metadata`. -/
def tcpProbeDataSourceTypeName (p : String) : String := p ++ "_tcp_probe"

/-- `FileContentDataSource.Metadata`. -/
def fileContentDataSourceTypeName (p : String) : String := p ++ "_file_content"

/-- `FailureDataSource.Metadata`. -/
def failureDataSourceTypeName (p : String) : String := p ++ "_failure"

/-- `SystemInfoDataSource.Metadata`. -/
def systemInfoDataSourceTypeName (p : String) : String := p ++ "_system_info"

/-- `SleepDataSource.Metadata`. -/
def sleepDataSourceTypeName (p : String) : String := p ++ "_sleep"

/-- `DebugProvider.Resources`: the registered resource constructors, as
their type-name functions, in registration order. -/
def debugProviderResources : List (String → String) :=
  [failureResourceTypeName, sleepResourceTypeName,
   commandResourceTypeName, httpGetResourceTypeName]

/-- `DebugProvider.DataSources`: the registered data-source
constructors, as their type-name functions, in registration order.
(`SleepDataSource` exists in the source but is not in this list.) -/
def debugProviderDataSources : List (String → String) :=
  [planArtifactDataSourceTypeName, oomKillDataSourceTypeName,
   cpuHogDataSourceTypeName, envDataSourceTypeName,
   dnsLookupDataSourceTypeName, tcpProbeDataSourceTypeName,
   fileContentDataSourceTypeName, failureDataSourceTypeName,
   systemInfoDataSourceTypeName]

/-! ## Schema embedding

Attribute names, kinds and nesting of every declared schema, projected
from the `Schema` methods (descriptions, validators, defaults and plan
modifiers omitted; `required`/`optional`/`computed` kept as the claims
mention computed results). -/

/-- Mode of an attribute: required, optional, computed, or
optional+computed. -/
inductive AttrMode where
  | req
  | opt
  | comp
  | optComp
  deriving DecidableEq, Repr

/-- A schema attribute: scalar (`Bool`/`Int32`/`Int64`/`String`), list,
map, or single-nested attribute with its own attribute list. -/
inductive SchemaAttr where
  | boolAttr (name : String) (mode : AttrMode)
  | int32Attr (name : String) (mode : AttrMode)
  | int64Attr (name : String) (mode : AttrMode)
  | stringAttr (name : String) (mode : AttrMode)
  | listAttr (name : String) (mode : AttrMode)
  | mapAttr (name : String) (mode : AttrMode)
  | singleNested (name : String) (mode : AttrMode) (attrs : List SchemaAttr)

/-- `FailureResource.Schema`. -/
def failureResourceSchema : List SchemaAttr :=
  [.stringAttr "id" .req,
   .boolAttr "fail_on_create" .optComp,
   .boolAttr "fail_on_update" .optComp,
   .boolAttr "fail_on_destroy" .optComp]

/-- `SleepResource.Schema`. -/
def sleepResourceSchema : List SchemaAttr :=
  [.stringAttr "duration" .req,
   .stringAttr "update_duration" .opt,
   .stringAttr "destroy_duration" .opt,
   .stringAttr "id" .comp]

/-- `CommandResource.Schema`. -/
def commandResourceSchema : List SchemaAttr :=
  [.stringAttr "id" .comp,
   .listAttr "create_command" .opt,
   .stringAttr "stderr" .comp,
   .stringAttr "stdout" .comp,
   .int32Attr "exit_code" .comp]

/-- `HTTPGetResource.Schema`. -/
def httpGetResourceSchema : List SchemaAttr :=
  [.stringAttr "url" .req,
   .mapAttr "headers" .opt,
   .int64Attr "timeout" .optComp,
   .stringAttr "response_body" .comp,
   .int64Attr "response_status_code" .comp,
   .mapAttr "response_headers" .comp]

/-- `SleepDataSource.Schema`. -/
def sleepDataSourceSchema : List SchemaAttr :=
  [.stringAttr "duration" .req]

/-- `CPUHogDataSource.Schema`. -/
def cpuHogDataSourceSchema : List SchemaAttr :=
  [.int32Attr "num_cores" .opt,
   .stringAttr "duration" .opt]

/-- `OOMKillDataSource.Schema`. -/
def oomKillDataSourceSchema : List SchemaAttr :=
  [.int64Attr "memory" .req,
   .int64Attr "block_size" .opt]

/-- `PlanArtifactDataSource.Schema`. -/
def planArtifactDataSourceSchema : List SchemaAttr :=
  [.int64Attr "file_size" .req,
   .stringAttr "file_name" .req,
   .stringAttr "id" .comp]

/-- `EnvDataSource.Schema`. -/
def envDataSourceSchema : List SchemaAttr :=
  [.listAttr "environment_variables" .opt,
   .mapAttr "result" .comp]

/-- `DNSLookupDataSource.Schema`. -/
def dnsLookupDataSourceSchema : List SchemaAttr :=
  [.stringAttr "hostname" .req,
   .listAttr "result" .comp]

/-- `TCPProbeDataSource.Schema`. -/
def tcpProbeDataSourceSchema : List SchemaAttr :=
  [.stringAttr "host" .req,
   .int32Attr "port" .req,
   .int32Attr "timeout" .opt,
   .boolAttr "use_ipv4" .opt,
   .boolAttr "use_ipv6" .opt,
   .boolAttr "reachable" .comp]

/-- `FileContentDataSource.Schema`. -/
def fileContentDataSourceSchema : List SchemaAttr :=
  [.stringAttr "filename" .req,
   .stringAttr "content" .comp,
   .stringAttr "content_base64" .comp,
   .stringAttr "content_sha256" .comp]

/-- `FailureDataSource.Schema`: empty. -/
def failureDataSourceSchema : List SchemaAttr := []

/-- `SystemInfoDataSource.Schema`: note the three
`schema.SingleNestedAttribute` entries. -/
def systemInfoDataSourceSchema : List SchemaAttr :=
  [.stringAttr "hostname" .comp,
   .stringAttr "os" .comp,
   .singleNested "platform_info" .comp
     [.stringAttr "platform" .comp,
      .stringAttr "platform_family" .comp,
      .stringAttr "platform_version" .comp,
      .stringAttr "kernel_version" .comp,
      .stringAttr "kernel_arch" .comp],
   .singleNested "proc_info" .comp
     [.int64Attr "uid" .comp,
      .int64Attr "gid" .comp,
      .int64Attr "pid" .comp,
      .int64Attr "ppid" .comp],
   .int64Attr "num_cpus" .comp,
   .int64Attr "memory_total" .comp,
   .singleNested "disk_info" .comp
     [.int64Attr "total" .comp,
      .int64Attr "used" .comp,
      .int64Attr "free" .comp],
   .stringAttr "home" .comp,
   .stringAttr "path" .comp,
   .stringAttr "working_dir" .comp]

/-- All declared resource and data-source schemas, keyed by type name
(with provider type name `"debug"`). -/
def allSchemas : List (String × List SchemaAttr) :=
  [("debug_failure", failureResourceSchema),
   ("debug_sleep", sleepResourceSchema),
   ("debug_command", commandResourceSchema),
   ("debug_http_get", httpGetResourceSchema),
   ("debug_plan_artifact", planArtifactDataSourceSchema),
   ("debug_oom_kill", oomKillDataSourceSchema),
   ("debug_cpu_hog", cpuHogDataSourceSchema),
   ("debug_environment_variables", envDataSourceSchema),
   ("debug_dns_lookup", dnsLookupDataSourceSchema),
   ("debug_tcp_probe", tcpProbeDataSourceSchema),
   ("debug_file_content", fileContentDataSourceSchema),
   ("debug_failure_data_source", failureDataSourceSchema),
   ("debug_system_info", systemInfoDataSourceSchema)]

/-- A flat attribute: anything but a single-nested attribute. -/
def SchemaAttr.isFlat : SchemaAttr → Bool
  | .singleNested _ _ _ => false
  | _ => true

/-- Whether an attribute is computed. -/
def SchemaAttr.isComputed : SchemaAttr → Bool
  | .boolAttr _ m => m = .comp || m = .optComp
  | .int32Attr _ m => m = .comp || m = .optComp
  | .int64Attr _ m => m = .comp || m = .optComp
  | .stringAttr _ m => m = .comp || m = .optComp
  | .listAttr _ m => m = .comp || m = .optComp
  | .mapAttr _ m => m = .comp || m = .optComp
  | .singleNested _ m _ => m = .comp || m = .optComp

/-! ### Model struct field shapes (for the flat-data-model claim) -/

/-- The Go type of a model struct field. -/
inductive FieldType where
  | str
  | boolT
  | i32
  | i64
  | rfc3339
  | listT
  | mapT
  | strSlice
  | strMap
  | obj
  deriving DecidableEq, Repr

/-- A field is flat when it is not a nested object holder
(`types.Object`). -/
def FieldType.isFlat : FieldType → Bool
  | .obj => false
  | _ => true

/-- All model structs of the provider, as (struct name, field list). -/
def allModelStructs : List (String × List (String × FieldType)) :=
  [("FailureResourceModel",
    [("fail_on_create", .boolT), ("fail_on_update", .boolT),
     ("fail_on_destroy", .boolT), ("id", .str)]),
   ("SleepResourceModel",
    [("id", .rfc3339), ("duration", .str), ("update_duration", .str),
     ("destroy_duration", .str)]),
   ("CommandResourceModel",
    [("id", .str), ("create_command", .listT), ("stderr", .str),
     ("stdout", .str), ("exit_code", .i32)]),
   ("HTTPGetResourceModel",
    [("url", .str), ("headers", .mapT), ("timeout", .i64),
     ("response_body", .str), ("response_status_code", .i64),
     ("response_headers", .mapT)]),
   ("PlanArtifactDataSourceModel",
    [("file_size", .i64), ("file_name", .str), ("id", .str)]),
   ("OOMKillDataSourceModel",
    [("memory", .i64), ("block_size", .i64)]),
   ("CPUHogDataSourceModel",
    [("num_cores", .i32), ("duration", .str)]),
   ("EnvDataSourceModel",
    [("environment_variables", .strSlice), ("result", .strMap)]),
   ("DNSLookupDataSourceModel",
    [("hostname", .str), ("result", .listT)]),
   ("TCPProbeDataSourceModel",
    [("host", .str), ("port", .i32), ("timeout", .i32),
     ("use_ipv4", .boolT), ("use_ipv6", .boolT), ("reachable", .boolT)]),
   ("FileContentDataSourceModel",
    [("filename", .str), ("content", .str), ("content_base64", .str),
     ("content_sha256", .str)]),
   ("FailureDataSourceModel", []),
   ("SleepDataSourceModel", [("duration", .str)]),
   ("SystemInfoDataSourceModel",
    [("hostname", .str), ("os", .str), ("platform_info", .obj),
     ("num_cpus", .i64), ("memory_total", .i64), ("disk_info", .obj),
     ("proc_info", .obj), ("home", .str), ("path", .str),
     ("working_dir", .str)])]

/-! ## CPU-hog fan-out trace model
(`cpu_hog_data_source.go`, `Read` lines 104–125 and `hogCPU` 127–135)

The fan-out is modelled over discrete time.  Worker `w`'s loop iteration
`i` happens at time `scheds w i`, with each schedule strictly monotone
(iterations take time and happen in order).  `close(quit)` happens at
`quitCloseTime`; a non-blocking receive on a closed channel succeeds, so
iteration `i` observes the closed channel iff the close is at or before
its time. -/

/-- Time at which `close(quit)` happens: the `select` fires at the
earlier of the duration elapsing and context cancellation, and both
branches close `quit`. -/
def quitCloseTime (durElapse : Nat) (ctxCancel : Option Nat) : Nat :=
  match ctxCancel with
  | none => durElapse
  | some c => min durElapse c

/-- The non-blocking `select` poll of `stop` in `hogCPU` at iteration
`i`: observes closed iff `close(quit)` already happened. -/
def quitObserved (closeT : Nat) (sched : Nat → Nat) (i : Nat) : Bool :=
  closeT ≤ sched i

/-- The `hogCPU` busy loop from iteration `i`, with an iteration budget
`fuel`: returns the iteration at which the worker returns, or `none` if
the budget runs out first. -/
def hogCPULoop (closeT : Nat) (sched : Nat → Nat) (i fuel : Nat) :
    Option Nat :=
  match fuel with
  | 0 => none
  | fuel + 1 =>
    if quitObserved closeT sched i then some i
    else hogCPULoop closeT sched (i + 1) fuel

/-- The iteration at which a `hogCPU` worker returns, run with budget
`closeT + 1` (sufficient for any strictly monotone schedule). -/
def hogCPUFinish (closeT : Nat) (sched : Nat → Nat) : Option Nat :=
  hogCPULoop closeT sched 0 (closeT + 1)

/-- `wg.Wait()`: `Read` returns no earlier than the close (the `select`
precedes the wait) and no earlier than every worker's finish time. -/
def readReturnTime (closeT n : Nat) (scheds : Nat → Nat → Nat) : Nat :=
  ((List.range n).map (fun w =>
    match hogCPUFinish closeT (scheds w) with
    | some j => scheds w j
    | none => 0)).foldr max closeT

/-- With enough fuel, the busy loop returns at the first
observed-closed iteration at or after its start. -/
theorem hogCPULoop_finds (closeT : Nat) (sched : Nat → Nat) :
    ∀ (fuel i : Nat), (∃ k, k < fuel ∧ quitObserved closeT sched (i + k)) →
    ∃ j, hogCPULoop closeT sched i fuel = some j ∧
      quitObserved closeT sched j = true ∧ i ≤ j ∧
      ∀ m, i ≤ m → m < j → quitObserved closeT sched m = false := by
  intro fuel
  induction fuel with
  | zero => intro i h; obtain ⟨k, hk, _⟩ := h; omega
  | succ fuel ih =>
    intro i h
    by_cases hobs : quitObserved closeT sched i
    · exact ⟨i, by simp [hogCPULoop, hobs], hobs, le_refl i, fun m h1 h2 => absurd h1 (by omega)⟩
    · obtain ⟨k, hk, hkobs⟩ := h
      have hk0 : k ≠ 0 := by
        rintro rfl; exact hobs (by simpa using hkobs)
      obtain ⟨j, hj, hjobs, hij, hleast⟩ := ih (i + 1)
        ⟨k - 1, by omega, by rw [show i + 1 + (k - 1) = i + k by omega]; exact hkobs⟩
      refine ⟨j, ?_, hjobs, by omega, ?_⟩
      · simp [hogCPULoop, hobs, hj]
      · intro m h1 h2
        rcases Nat.eq_or_lt_of_le h1 with rfl | h1'
        · simpa using hobs
        · exact hleast m h1' h2

/-- A member of a list is bounded by `foldr max`. -/
theorem le_foldr_max {l : List Nat} {x b : Nat} (hx : x ∈ l) :
    x ≤ l.foldr max b := by
  induction l with
  | nil => cases hx
  | cons a l ih =>
    rcases List.mem_cons.mp hx with rfl | hx'
    · exact le_max_left _ _
    · exact le_trans (ih hx') (le_max_right _ _)

/-- C5: in the CPU-hog fan-out all workers share the one `quit` signal:
the channel is closed exactly when the configured duration elapses or
the context is cancelled (whichever first); every worker's busy loop
runs only iterations strictly before the close, returns at the first
iteration that observes the closed channel, and `Read` (which
`wg.Wait`s) returns no earlier than every worker's finish — so no worker
keeps hogging after cancellation. -/
theorem cpuHog_fanout_cancellation (durElapse : Nat) (ctxCancel : Option Nat)
    (n : Nat) (scheds : Nat → Nat → Nat)
    (hmono : ∀ w, StrictMono (scheds w)) :
    ((ctxCancel = none → quitCloseTime durElapse ctxCancel = durElapse) ∧
      ∀ c, ctxCancel = some c →
        quitCloseTime durElapse ctxCancel = min durElapse c) ∧
    ∀ w, w < n →
      ∃ j, hogCPUFinish (quitCloseTime durElapse ctxCancel) (scheds w) = some j ∧
        quitObserved (quitCloseTime durElapse ctxCancel) (scheds w) j = true ∧
        (∀ m, m < j →
          quitObserved (quitCloseTime durElapse ctxCancel) (scheds w) m = false ∧
          scheds w m < quitCloseTime durElapse ctxCancel) ∧
        scheds w j ≤ readReturnTime (quitCloseTime durElapse ctxCancel) n scheds := by
  set cT := quitCloseTime durElapse ctxCancel with hcT
  refine ⟨⟨fun h => by simp [quitCloseTime, h] at hcT ⊢; exact hcT,
    fun c h => by simp [quitCloseTime, h] at hcT ⊢; exact hcT⟩, ?_⟩
  intro w hw
  have hex : ∃ k, k < cT + 1 ∧ quitObserved cT (scheds w) (0 + k) := by
    refine ⟨cT, Nat.lt_succ_self _, ?_⟩
    simp only [quitObserved, Nat.zero_add, decide_eq_true_eq]
    exact (hmono w).le_apply
  obtain ⟨j, hj, hjobs, _, hleast⟩ := hogCPULoop_finds cT (scheds w) (cT + 1) 0 hex
  refine ⟨j, hj, hjobs, ?_, ?_⟩
  · intro m hm
    have hobs := hleast m (Nat.zero_le m) hm
    refine ⟨hobs, ?_⟩
    simpa [quitObserved, Nat.lt_iff_add_one_le] using hobs
  · unfold readReturnTime
    refine le_foldr_max ?_
    rw [List.mem_map]
    exact ⟨w, List.mem_range.mpr hw, by simp only [hogCPUFinish, ← hcT, hj]⟩

/-- Witness for C5: two workers, iteration `i` of each at time `i`,
duration elapsing at time 2 with a context cancellation pending at 5. -/
theorem cpuHog_fanout_cancellation_witness :
    ∃ j, hogCPUFinish (quitCloseTime 2 (some 5)) (fun i => i) = some j ∧
      quitObserved (quitCloseTime 2 (some 5)) (fun i => i) j = true ∧
      (∀ m, m < j →
        quitObserved (quitCloseTime 2 (some 5)) (fun i => i) m = false ∧
        (fun i => i) m < quitCloseTime 2 (some 5)) ∧
      (fun i => i) j ≤ readReturnTime (quitCloseTime 2 (some 5)) 2 (fun _ i => i) :=
  (cpuHog_fanout_cancellation 2 (some 5) 2 (fun _ i => i)
    (fun _ => strictMono_id)).2 0 (by omega)

/-! ## C7: provider and per-entity type names -/

/-- C7: the provider registers under type name `"debug"`, and every
registered resource and data source (and the unregistered
`SleepDataSource` as well) sets its type name to the provider type name
followed by an underscore-separated suffix, yielding `debug_failure`,
`debug_sleep`, `debug_command`, `debug_http_get` for resources and
`debug_plan_artifact`, `debug_oom_kill`, `debug_cpu_hog`,
`debug_environment_variables`, `debug_dns_lookup`, `debug_tcp_probe`,
`debug_file_content`, `debug_failure`, `debug_system_info` for data
sources. -/
theorem provider_registers_debug_type_names :
    debugProviderTypeName = "debug" ∧
    debugProviderResources.map (fun f => f debugProviderTypeName) =
      ["debug_failure", "debug_sleep", "debug_command", "debug_http_get"] ∧
    debugProviderDataSources.map (fun f => f debugProviderTypeName) =
      ["debug_plan_artifact", "debug_oom_kill", "debug_cpu_hog",
       "debug_environment_variables", "debug_dns_lookup", "debug_tcp_probe",
       "debug_file_content", "debug_failure", "debug_system_info"] ∧
    sleepDataSourceTypeName debugProviderTypeName = "debug_sleep" ∧
    ∀ f ∈ debugProviderResources ++ debugProviderDataSources,
      ∃ suffix, ∀ p, f p = p ++ ("_" ++ suffix) := by
  refine ⟨rfl, rfl, rfl, rfl, ?_⟩
  intro f hf
  simp only [debugProviderResources, debugProviderDataSources,
    List.append_eq, List.cons_append, List.nil_append, List.mem_cons,
    List.not_mem_nil, or_false] at hf
  rcases hf with rfl | rfl | rfl | rfl | rfl | rfl | rfl | rfl | rfl | rfl | rfl | rfl | rfl
  · exact ⟨"failure", fun p => rfl⟩
  · exact ⟨"sleep", fun p => rfl⟩
  · exact ⟨"command", fun p => rfl⟩
  · exact ⟨"http_get", fun p => rfl⟩
  · exact ⟨"plan_artifact", fun p => rfl⟩
  · exact ⟨"oom_kill", fun p => rfl⟩
  · exact ⟨"cpu_hog", fun p => rfl⟩
  · exact ⟨"environment_variables", fun p => rfl⟩
  · exact ⟨"dns_lookup", fun p => rfl⟩
  · exact ⟨"tcp_probe", fun p => rfl⟩
  · exact ⟨"file_content", fun p => rfl⟩
  · exact ⟨"failure", fun p => rfl⟩
  · exact ⟨"system_info", fun p => rfl⟩

/-- Witness for C7: the suffix clause at the first registered
resource. -/
theorem provider_registers_debug_type_names_witness :
    ∃ suffix, ∀ p, failureResourceTypeName p = p ++ ("_" ++ suffix) :=
  provider_registers_debug_type_names.2.2.2.2 failureResourceTypeName
    (List.mem_append_left _ (List.Mem.head _))

/-! ## C4: flat data model (corrected) -/

/-- Attribute name accessor. -/
def SchemaAttr.attrName : SchemaAttr → String
  | .boolAttr n _ => n
  | .int32Attr n _ => n
  | .int64Attr n _ => n
  | .stringAttr n _ => n
  | .listAttr n _ => n
  | .mapAttr n _ => n
  | .singleNested n _ _ => n

/-- Nested attribute list (empty for flat attributes). -/
def SchemaAttr.nestedAttrs : SchemaAttr → List SchemaAttr
  | .singleNested _ _ attrs => attrs
  | _ => []

/-- C4 counterexample: the claim "every attribute in every declared
schema is a scalar, list, or map attribute with no nested attribute
structure, and every model struct holds only flat per-attribute fields"
is false: `debug_system_info`'s schema declares single-nested
attributes, and `SystemInfoDataSourceModel` holds `types.Object`
fields. -/
theorem schema_flat_counterexample :
    ¬ (∀ s ∈ allSchemas, ∀ a ∈ s.2, a.isFlat = true) ∧
    ¬ (∀ m ∈ allModelStructs, ∀ fld ∈ m.2, fld.2.isFlat = true) :=
  ⟨by decide, by decide⟩

/-- C4 (amended): every attribute in every declared schema is a flat
scalar/list/map attribute, except in `debug_system_info`'s schema, whose
`platform_info`, `proc_info` and `disk_info` attributes are single-nested
objects containing only flat scalar attributes; correspondingly every
model struct holds only flat fields except `SystemInfoDataSourceModel`,
whose `platform_info`, `proc_info` and `disk_info` fields are
`types.Object` holders. -/
theorem schema_flat_amended :
    (∀ s ∈ allSchemas, ∀ a ∈ s.2,
      a.isFlat = true ∨
        (s.1 = "debug_system_info" ∧
          (a.attrName = "platform_info" ∨ a.attrName = "proc_info" ∨
            a.attrName = "disk_info") ∧
          ∀ b ∈ a.nestedAttrs, b.isFlat = true)) ∧
    (∀ m ∈ allModelStructs, ∀ fld ∈ m.2,
      fld.2.isFlat = true ∨
        (m.1 = "SystemInfoDataSourceModel" ∧
          (fld.1 = "platform_info" ∨ fld.1 = "proc_info" ∨
            fld.1 = "disk_info"))) :=
  ⟨by decide, by decide⟩

/-- Witness for C4 (amended), at the `id` attribute of the failure
resource schema. -/
theorem schema_flat_amended_witness :
    (SchemaAttr.stringAttr "id" AttrMode.req).isFlat = true ∨
      (("debug_failure" : String) = "debug_system_info" ∧
        ((SchemaAttr.stringAttr "id" AttrMode.req).attrName = "platform_info" ∨
          (SchemaAttr.stringAttr "id" AttrMode.req).attrName = "proc_info" ∨
          (SchemaAttr.stringAttr "id" AttrMode.req).attrName = "disk_info") ∧
        ∀ b ∈ (SchemaAttr.stringAttr "id" AttrMode.req).nestedAttrs,
          b.isFlat = true) :=
  schema_flat_amended.1 ("debug_failure", failureResourceSchema)
    (List.Mem.head _) (.stringAttr "id" .req) (List.Mem.head _)

/-! ## C1: atomicity on error (corrected) -/

/-- An operation result in which an error diagnostic implies no state
was written. -/
def ErrNoWrite {σ : Type} (r : OpResult σ) : Prop :=
  r.hasError = true → r.stateWrite = none

/-- C1 counterexample: `TCPProbeDataSource.Read` on a failed dial adds
an error diagnostic and *still* writes the model (with
`reachable = false`) to the response state — the final `resp.State.Set`
is unconditional — so the claim that every operation returns
immediately on error without writing state is false. -/
theorem tcpProbe_error_path_writes_state :
    (tcpProbeDataSourceRead true ⟨"localhost", 80, 5, none, none, none⟩
        false).hasError = true ∧
    (tcpProbeDataSourceRead true ⟨"localhost", 80, 5, none, none, none⟩
        false).stateWrite =
      some ⟨"localhost", 80, 5, none, none, some false⟩ := by
  decide

/-- C1 (amended): every operation of every resource and data source
that adds an error diagnostic returns without writing anything to the
response state, with two exceptions: `TCPProbeDataSource.Read` writes
the state (with `reachable = false`) after a dial error, and
`DNSLookupDataSource.Read`, which never checks for configuration-read
errors, performs its final state write even when the configuration read
failed (it does return without a write when the DNS lookup itself
fails). -/
theorem error_paths_no_state_write_amended :
    (∀ g d, ErrNoWrite (failureResourceCreate g d)) ∧
    (∀ g d, ErrNoWrite (failureResourceRead g d)) ∧
    (∀ g d, ErrNoWrite (failureResourceUpdate g d)) ∧
    (∀ g d, ErrNoWrite (failureResourceDelete g d)) ∧
    (∀ g d p ok now, ErrNoWrite (sleepResourceCreate g d p ok now)) ∧
    ErrNoWrite sleepResourceRead ∧
    (∀ pg sg pl st p ok, ErrNoWrite (sleepResourceUpdate pg sg pl st p ok)) ∧
    (∀ g d p ok, ErrNoWrite (sleepResourceDelete g d p ok)) ∧
    (∀ g nr d dr ra, ErrNoWrite (httpGetResourceCreate g nr d dr ra)) ∧
    (∀ g d, ErrNoWrite (httpGetResourceRead g d)) ∧
    (∀ g d, ErrNoWrite (httpGetResourceUpdate g d)) ∧
    ErrNoWrite httpGetResourceDelete ∧
    (∀ sha g tl el d ro so se ec,
      ErrNoWrite (commandResourceCreate sha g tl el d ro so se ec)) ∧
    ErrNoWrite commandResourceRead ∧
    ErrNoWrite commandResourceUpdate ∧
    ErrNoWrite commandResourceDelete ∧
    (∀ g d p ok, ErrNoWrite (sleepDataSourceRead g d p ok)) ∧
    (∀ g d r blocks, oomKillDataSourceRead g d = some (r, blocks) →
      ErrNoWrite r) ∧
    (∀ g d ncpu p, ErrNoWrite (cpuHogDataSourceRead g d ncpu p)) ∧
    (∀ sha g f st rd, ErrNoWrite (fileContentDataSourceRead sha g f st rd)) ∧
    (∀ g fl lu ev, ErrNoWrite (envDataSourceRead g fl lu ev)) ∧
    (∀ g env, ErrNoWrite (systemInfoDataSourceRead g env)) ∧
    (∀ sha base g fs fn env,
      ErrNoWrite (planArtifactDataSourceRead sha base g fs fn env)) ∧
    (∀ g, ErrNoWrite (failureDataSourceRead g)) ∧
    (∀ d dialOk, tcpProbeDataSourceRead false d dialOk = ⟨true, none, []⟩ ∧
      (tcpProbeDataSourceRead true d false).hasError = true ∧
      (tcpProbeDataSourceRead true d false).stateWrite =
        some { d with reachable := some false }) ∧
    (∀ g host, dnsLookupDataSourceRead g host none = ⟨true, none, []⟩) ∧
    (∀ host ips,
      (dnsLookupDataSourceRead false host (some ips)).hasError = true ∧
      (dnsLookupDataSourceRead false host (some ips)).stateWrite =
        some { hostname := host, result := ips }) := by
  refine ⟨?_, ?_, ?_, ?_, ?_, ?_, ?_, ?_, ?_, ?_, ?_, ?_, ?_, ?_, ?_, ?_,
    ?_, ?_, ?_, ?_, ?_, ?_, ?_, ?_, ?_, ?_, ?_⟩
  · intro g d; simp only [ErrNoWrite, failureResourceCreate]
    repeat' split
    all_goals simp
  · intro g d; simp only [ErrNoWrite, failureResourceRead]
    repeat' split
    all_goals simp
  · intro g d; simp only [ErrNoWrite, failureResourceUpdate]
    repeat' split
    all_goals simp
  · intro g d; simp only [ErrNoWrite, failureResourceDelete]
    repeat' split
    all_goals simp
  · intro g d p ok now; simp only [ErrNoWrite, sleepResourceCreate]
    repeat' split
    all_goals simp
  · simp [ErrNoWrite, sleepResourceRead]
  · intro pg sg pl st p ok; simp only [ErrNoWrite, sleepResourceUpdate]
    repeat' split
    all_goals simp
  · intro g d p ok; simp only [ErrNoWrite, sleepResourceDelete]
    repeat' split
    all_goals simp
  · intro g nr d dr ra; simp only [ErrNoWrite, httpGetResourceCreate]
    repeat' split
    all_goals simp
  · intro g d; simp only [ErrNoWrite, httpGetResourceRead]
    repeat' split
    all_goals simp
  · intro g d; simp only [ErrNoWrite, httpGetResourceUpdate]
    repeat' split
    all_goals simp
  · simp [ErrNoWrite, httpGetResourceDelete]
  · intro sha g tl el d ro so se ec
    simp only [ErrNoWrite, commandResourceCreate]
    repeat' split
    all_goals simp
  · simp [ErrNoWrite, commandResourceRead]
  · simp [ErrNoWrite, commandResourceUpdate]
  · simp [ErrNoWrite, commandResourceDelete]
  · intro g d p ok; simp only [ErrNoWrite, sleepDataSourceRead]
    repeat' split
    all_goals simp
  · intro g d r blocks h
    simp only [oomKillDataSourceRead] at h
    repeat' split at h
    all_goals try simp only [Option.some.injEq, Prod.mk.injEq] at h
    all_goals try exact Option.noConfusion h
    all_goals (obtain ⟨h1, h2⟩ := h; cases h1; simp [ErrNoWrite])
  · intro g d ncpu p; simp only [ErrNoWrite, cpuHogDataSourceRead]
    repeat' split
    all_goals simp
  · intro sha g f st rd
    simp only [ErrNoWrite, fileContentDataSourceRead]
    repeat' split
    all_goals simp
  · intro g fl lu ev; simp only [ErrNoWrite, envDataSourceRead]
    repeat' split
    all_goals simp
  · intro g env; simp only [ErrNoWrite, systemInfoDataSourceRead]
    repeat' split
    all_goals simp
  · intro sha base g fs fn env
    simp only [ErrNoWrite, planArtifactDataSourceRead]
    repeat' split
    all_goals simp
  · intro g; simp only [ErrNoWrite, failureDataSourceRead]
    repeat' split
    all_goals simp
  · intro d dialOk
    refine ⟨?_, ?_, ?_⟩ <;> simp [tcpProbeDataSourceRead]
  · intro g host; simp [dnsLookupDataSourceRead]
  · intro host ips; exact ⟨rfl, rfl⟩

/-- Witness for C1 (amended): discharging the error hypothesis at a
concrete failing input (a failure-resource Create with
`fail_on_create = true`). -/
theorem error_paths_no_state_write_amended_witness :
    (failureResourceCreate true
      ⟨some true, none, none, "aaaaaaaaaa"⟩).stateWrite = none :=
  error_paths_no_state_write_amended.1 true
    ⟨some true, none, none, "aaaaaaaaaa"⟩ (by decide)

/-! ## C2: state write on data-source success (corrected) -/

/-- C2 counterexample: `OOMKillDataSource.Read` at valid inputs
(memory = 1024, block_size = 256) completes without adding an error
diagnostic and yet performs **no** state write — its success path ends
after the allocation loop with only a log call, never `resp.State.Set`;
so the claim that every data source's Read ends with a state write is
false. -/
theorem oomKill_success_without_state_write :
    (oomKillDataSourceRead true ⟨1024, 256⟩).map
      (fun x => (x.1.hasError, x.1.stateWrite)) = some (false, none) := by
  rfl

/-- C2 (amended): the data sources whose schemas declare computed
attributes — `plan_artifact`, `environment_variables`, `dns_lookup`,
`tcp_probe`, `file_content`, `system_info` — write their computed result
to the response state whenever Read completes without an error
diagnostic; the `sleep`, `oom_kill` and `cpu_hog` data sources (whose
schemas declare no computed attribute) return without any state write,
and the `failure` data source never completes without an error. -/
theorem datasource_success_writes_state_amended :
    (∀ sha g f st rd,
      (fileContentDataSourceRead sha g f st rd).hasError = false →
      (fileContentDataSourceRead sha g f st rd).stateWrite.isSome = true) ∧
    (∀ g host lu, (dnsLookupDataSourceRead g host lu).hasError = false →
      (dnsLookupDataSourceRead g host lu).stateWrite.isSome = true) ∧
    (∀ g d ok, (tcpProbeDataSourceRead g d ok).hasError = false →
      (tcpProbeDataSourceRead g d ok).stateWrite.isSome = true) ∧
    (∀ g fl lu ev, (envDataSourceRead g fl lu ev).hasError = false →
      (envDataSourceRead g fl lu ev).stateWrite.isSome = true) ∧
    (∀ g env, (systemInfoDataSourceRead g env).hasError = false →
      (systemInfoDataSourceRead g env).stateWrite.isSome = true) ∧
    (∀ sha base g fs fn env,
      (planArtifactDataSourceRead sha base g fs fn env).hasError = false →
      (planArtifactDataSourceRead sha base g fs fn env).stateWrite.isSome
        = true) ∧
    (∀ g d p ok, (sleepDataSourceRead g d p ok).stateWrite = none) ∧
    (∀ g d ncpu p, (cpuHogDataSourceRead g d ncpu p).stateWrite = none) ∧
    (∀ g d r blocks, oomKillDataSourceRead g d = some (r, blocks) →
      r.stateWrite = none) ∧
    (∀ g, (failureDataSourceRead g).hasError = true) ∧
    (fileContentDataSourceSchema.any SchemaAttr.isComputed = true ∧
      dnsLookupDataSourceSchema.any SchemaAttr.isComputed = true ∧
      tcpProbeDataSourceSchema.any SchemaAttr.isComputed = true ∧
      envDataSourceSchema.any SchemaAttr.isComputed = true ∧
      systemInfoDataSourceSchema.any SchemaAttr.isComputed = true ∧
      planArtifactDataSourceSchema.any SchemaAttr.isComputed = true ∧
      sleepDataSourceSchema.any SchemaAttr.isComputed = false ∧
      cpuHogDataSourceSchema.any SchemaAttr.isComputed = false ∧
      oomKillDataSourceSchema.any SchemaAttr.isComputed = false ∧
      failureDataSourceSchema.any SchemaAttr.isComputed = false) := by
  refine ⟨?_, ?_, ?_, ?_, ?_, ?_, ?_, ?_, ?_, ?_, by decide⟩
  · intro sha g f st rd
    simp only [fileContentDataSourceRead]
    repeat' split
    all_goals simp
  · intro g host lu
    simp only [dnsLookupDataSourceRead]
    repeat' split
    all_goals simp
  · intro g d ok
    simp only [tcpProbeDataSourceRead]
    repeat' split
    all_goals simp
  · intro g fl lu ev
    simp only [envDataSourceRead]
    repeat' split
    all_goals simp
  · intro g env
    simp only [systemInfoDataSourceRead]
    repeat' split
    all_goals simp
  · intro sha base g fs fn env
    simp only [planArtifactDataSourceRead]
    repeat' split
    all_goals simp
  · intro g d p ok
    simp only [sleepDataSourceRead]
    repeat' split
    all_goals simp
  · intro g d ncpu p
    simp only [cpuHogDataSourceRead]
    repeat' split
    all_goals simp
  · intro g d r blocks h
    simp only [oomKillDataSourceRead] at h
    repeat' split at h
    all_goals try simp only [Option.some.injEq, Prod.mk.injEq] at h
    all_goals try exact Option.noConfusion h
    all_goals (obtain ⟨h1, h2⟩ := h; cases h1; rfl)
  · intro g
    simp only [failureDataSourceRead]
    repeat' split
    all_goals simp

/-- Witness for C2 (amended): a successful file-content read writes
state. -/
theorem datasource_success_writes_state_amended_witness :
    (fileContentDataSourceRead (fun _ => []) true "f" (.okFile 2)
      (some [104, 105])).stateWrite.isSome = true :=
  datasource_success_writes_state_amended.1 (fun _ => []) true "f"
    (.okFile 2) (some [104, 105]) (by rfl)

/-! ## C6: data sources are effect-free (corrected) -/

/-- C6 counterexample: data-source Reads are not all free of external
mutation.  `CPUHogDataSource.Read` (valid config, 4 of 8 cores, "30s")
sets the process-wide GOMAXPROCS, and `PlanArtifactDataSource.Read`
(file absent, size 100) creates and writes a file on the filesystem. -/
theorem datasources_not_effect_free :
    (cpuHogDataSourceRead true ⟨4, "30s"⟩ 8 (some 30)).effects =
      [.setGOMAXPROCS 4] ∧
    (planArtifactDataSourceRead (fun _ => []) (fun s => s) true 100 "f"
        ⟨.errNotExist, true, none, true, none, true, some []⟩).effects =
      [.fileCreate "f", .fileWrite "f" 100] := by
  constructor
  · rfl
  · have h1 : planArtifactWriteLoop 100 none 0 0 = ([100], true) := by
      rw [planArtifactWriteLoop, planArtifactWriteLoop]
      norm_num [chunkBytes, planArtifactChunkSize]
      simp
    simp [planArtifactDataSourceRead, h1]

/-- C6 (amended): every data-source Read mutates nothing outside its
own response, with two exceptions: `cpu_hog` sets the process-wide
GOMAXPROCS once its validations pass, and `plan_artifact` creates and
writes the configured file when it does not already exist (when the
file exists, `plan_artifact` only reads it).  All other data sources —
`sleep`, `oom_kill`, `environment_variables`, `dns_lookup`,
`tcp_probe`, `file_content`, `failure`, `system_info` — perform no
external mutation on any path. -/
theorem datasource_effects_amended :
    (∀ g d p ok, (sleepDataSourceRead g d p ok).effects = []) ∧
    (∀ g d r blocks, oomKillDataSourceRead g d = some (r, blocks) →
      r.effects = []) ∧
    (∀ g fl lu ev, (envDataSourceRead g fl lu ev).effects = []) ∧
    (∀ g host lu, (dnsLookupDataSourceRead g host lu).effects = []) ∧
    (∀ g d ok, (tcpProbeDataSourceRead g d ok).effects = []) ∧
    (∀ sha g f st rd, (fileContentDataSourceRead sha g f st rd).effects = []) ∧
    (∀ g, (failureDataSourceRead g).effects = []) ∧
    (∀ g env, (systemInfoDataSourceRead g env).effects = []) ∧
    (∀ g d ncpu p, (cpuHogDataSourceRead g d ncpu p).effects = [] ∨
      (cpuHogDataSourceRead g d ncpu p).effects =
        [.setGOMAXPROCS (if d.numCores = 0 then ncpu else d.numCores)]) ∧
    (∀ sha base g fs fn env,
      (∀ e ∈ (planArtifactDataSourceRead sha base g fs fn env).effects,
        e = .fileCreate fn ∨ ∃ k, e = .fileWrite fn k) ∧
      (∀ size, env.stat = .okExisting size →
        (planArtifactDataSourceRead sha base g fs fn env).effects = [])) := by
  refine ⟨?_, ?_, ?_, ?_, ?_, ?_, ?_, ?_, ?_, ?_⟩
  · intro g d p ok
    simp only [sleepDataSourceRead]
    repeat' split
    all_goals simp
  · intro g d r blocks h
    simp only [oomKillDataSourceRead] at h
    repeat' split at h
    all_goals try simp only [Option.some.injEq, Prod.mk.injEq] at h
    all_goals try exact Option.noConfusion h
    all_goals (obtain ⟨h1, h2⟩ := h; cases h1; rfl)
  · intro g fl lu ev
    simp only [envDataSourceRead]
    repeat' split
    all_goals simp
  · intro g host lu
    simp only [dnsLookupDataSourceRead]
    repeat' split
    all_goals simp
  · intro g d ok
    simp only [tcpProbeDataSourceRead]
    repeat' split
    all_goals simp
  · intro sha g f st rd
    simp only [fileContentDataSourceRead]
    repeat' split
    all_goals simp
  · intro g
    simp only [failureDataSourceRead]
    repeat' split
    all_goals simp
  · intro g env
    simp only [systemInfoDataSourceRead]
    repeat' split
    all_goals simp
  · intro g d ncpu p
    simp only [cpuHogDataSourceRead]
    repeat' split
    all_goals simp
  · intro sha base g fs fn env
    constructor
    · intro e he
      simp only [planArtifactDataSourceRead] at he
      repeat' split at he
      all_goals simp_all
      all_goals (rcases he with rfl | ⟨k, _, rfl⟩)
      all_goals simp
    · intro size hstat
      simp only [planArtifactDataSourceRead, hstat]
      repeat' split
      all_goals simp

/-- Witness for C6 (amended): `oom_kill` at a concrete valid input has
no external effects. -/
theorem datasource_effects_amended_witness :
    (⟨false, none, []⟩ : OpResult OOMKillDataSourceModel).effects = [] :=
  datasource_effects_amended.2.1 true ⟨1024, 256⟩ ⟨false, none, []⟩
    (oomKillBlocks 4 256 256) (by rfl)

/-! ## C8: the OOM-kill allocation arithmetic -/

/-- An allocated block holds exactly the requested number of bytes. -/
theorem oomKillBlock_length (size : Int) :
    (oomKillBlock size).length = size.toNat := by
  simp [oomKillBlock]

/-- A map over `List.range` whose function is constant below `n` is a
replicate. -/
theorem map_range_eq_replicate {α : Type} (n : Nat) (f : Nat → α) (c : α)
    (h : ∀ i, i < n → f i = c) : (List.range n).map f = List.replicate n c := by
  rw [List.eq_replicate_iff]
  refine ⟨by simp, ?_⟩
  intro b hb
  rw [List.mem_map] at hb
  obtain ⟨i, hi, rfl⟩ := hb
  exact h i (List.mem_range.mp hi)

/-- The allocation loop runs exactly `numBlocks` iterations. -/
theorem oomKillBlocks_count (nb lastSz bs : Int) :
    (oomKillBlocks nb lastSz bs).length = nb.toNat := by
  unfold oomKillBlocks
  rw [List.length_map, List.length_range]

/-- Lengths of the blocks produced by the allocation loop: `nb - 1`
full blocks followed by one block of `lastSz` bytes. -/
theorem oomKillBlocks_lengths (nb lastSz bs : Int) (h : 1 ≤ nb) :
    (oomKillBlocks nb lastSz bs).map List.length =
      List.replicate (nb.toNat - 1) bs.toNat ++ [lastSz.toNat] := by
  unfold oomKillBlocks
  rw [List.map_map]
  have hnb : nb.toNat = (nb.toNat - 1) + 1 := by omega
  rw [hnb, List.range_succ, List.map_append]
  congr 1
  · apply map_range_eq_replicate
    intro i hi
    have hne : ¬((i : Int) = nb - 1) := by omega
    simp [Function.comp, hne, oomKillBlock_length]
  · have heq : ((nb.toNat - 1 : Nat) : Int) = nb - 1 := by omega
    simp [Function.comp, heq, oomKillBlock_length]

/-- Ceiling division via the allocation loop's `div`/`mod` plan. -/
theorem ceil_div_plan (M B : Nat) (hM : 1 ≤ M) (hB : 1 ≤ B) :
    (M + B - 1) / B = if M % B = 0 then M / B else M / B + 1 := by
  have hsplit : B * (M / B) + M % B = M := Nat.div_add_mod M B
  have hmodlt : M % B < B := Nat.mod_lt _ (by omega)
  by_cases hrem : M % B = 0
  · rw [if_pos hrem]
    have e1 : M + B - 1 = B * (M / B) + (B - 1) := by omega
    rw [e1, Nat.mul_add_div (show 0 < B by omega) (M / B) (B - 1),
      Nat.div_eq_of_lt (show B - 1 < B by omega), Nat.add_zero]
  · rw [if_neg hrem]
    have hpos : 0 < M % B := Nat.pos_of_ne_zero hrem
    have e1a : B * (M / B + 1) = B * (M / B) + B := by ring
    have e1 : M + B - 1 = B * (M / B + 1) + (M % B - 1) := by omega
    rw [e1, Nat.mul_add_div (show 0 < B by omega) (M / B + 1) (M % B - 1),
      Nat.div_eq_of_lt (show M % B - 1 < B by omega), Nat.add_zero]

/-- C8: for `memory = m ≥ 1` and `block_size = b ≥ 1` the OOM-kill
allocation loop terminates having allocated exactly `⌈m/b⌉` blocks whose
lengths sum to exactly `m` bytes; every block holds `b` bytes except the
last, which holds `m mod b` bytes when `b` does not divide `m` and `b`
bytes otherwise. -/
theorem oomKill_allocates_ceil_blocks (m b : Int) (hm : 1 ≤ m) (hb : 1 ≤ b) :
    ∃ r blocks,
      oomKillDataSourceRead true ⟨m, b⟩ = some (r, blocks) ∧
      r.hasError = false ∧
      blocks.length = (m.toNat + b.toNat - 1) / b.toNat ∧
      (blocks.map List.length).sum = m.toNat ∧
      blocks.map List.length =
        List.replicate (blocks.length - 1) b.toNat ++
          [if b ∣ m then b.toNat else (m % b).toNat] := by
  obtain ⟨M, rfl⟩ : ∃ M : Nat, (M : Int) = m :=
    ⟨m.toNat, Int.toNat_of_nonneg (by omega)⟩
  obtain ⟨B, rfl⟩ : ∃ B : Nat, (B : Int) = b :=
    ⟨b.toNat, Int.toNat_of_nonneg (by omega)⟩
  have hM1 : 1 ≤ M := by exact_mod_cast hm
  have hB1 : 1 ≤ B := by exact_mod_cast hb
  have hsplit : B * (M / B) + M % B = M := Nat.div_add_mod M B
  have hmodlt : M % B < B := Nat.mod_lt _ (by omega)
  have hdiv : (M : Int) / (B : Int) = ((M / B : Nat) : Int) :=
    (Int.natCast_div M B).symm
  have hmod : (M : Int) % (B : Int) = ((M % B : Nat) : Int) :=
    (Int.natCast_mod M B).symm
  have hread : oomKillDataSourceRead true ⟨(M : Int), (B : Int)⟩ =
      some (⟨false, none, []⟩,
        oomKillBlocks
          (if 0 < M % B then ((M / B + 1 : Nat) : Int) else ((M / B : Nat) : Int))
          (if 0 < M % B then ((M % B : Nat) : Int) else (B : Int)) (B : Int)) := by
    unfold oomKillDataSourceRead
    have c1 : ¬((M : Int) ≤ 0 ∧ (M : Int) ≠ -1) := by omega
    have c2 : ¬((B : Int) < 0) := by omega
    have c3 : ¬((B : Int) ≤ 0) := by omega
    have c4 : ¬((M : Int) = -1) := by omega
    simp only [Bool.not_true, Bool.false_eq_true, if_false, c1, c2, c3, c4,
      if_neg, ite_false, hdiv, hmod, Int.natCast_pos]
    split_ifs with h0
    · norm_cast
    · norm_cast
  by_cases hrem : M % B = 0
  · -- b divides m: the last block is a full block
    have hnotpos : ¬(0 < M % B) := by omega
    have hBdvdM : B ∣ M := Nat.dvd_of_mod_eq_zero hrem
    have hq1 : 1 ≤ M / B :=
      (Nat.one_le_div_iff (by omega)).mpr (Nat.le_of_dvd (by omega) hBdvdM)
    have hread0 : oomKillDataSourceRead true ⟨(M : Int), (B : Int)⟩ =
        some (⟨false, none, []⟩,
          oomKillBlocks ((M / B : Nat) : Int) (B : Int) (B : Int)) := by
      rw [hread]
      simp only [if_neg hnotpos]
    have hnb1 : (1 : Int) ≤ ((M / B : Nat) : Int) := by exact_mod_cast hq1
    refine ⟨_, _, hread0, rfl, ?_, ?_, ?_⟩
    · -- block count = ceiling
      rw [oomKillBlocks_count]
      simp only [Int.toNat_natCast]
      rw [ceil_div_plan M B hM1 hB1, if_pos hrem]
    · -- lengths sum to m
      rw [oomKillBlocks_lengths _ _ _ hnb1, List.sum_append, List.sum_replicate,
        smul_eq_mul]
      simp only [Int.toNat_natCast, List.sum_cons, List.sum_nil, Nat.add_zero]
      have e2 : M / B * B = M := Nat.div_mul_cancel hBdvdM
      have e3 : (M / B - 1) * B + B = M / B * B := by
        have h4 : M / B - 1 + 1 = M / B := by omega
        calc (M / B - 1) * B + B = (M / B - 1 + 1) * B := by ring
          _ = M / B * B := by rw [h4]
      rw [e3, e2]
    · -- all blocks full, divisibility holds
      rw [oomKillBlocks_lengths _ _ _ hnb1, oomKillBlocks_count,
        if_pos (Int.natCast_dvd_natCast.mpr hBdvdM)]
      try simp only [Int.toNat_natCast]
  · -- b does not divide m: the last block is the remainder
    have hpos : 0 < M % B := Nat.pos_of_ne_zero hrem
    have hread1 : oomKillDataSourceRead true ⟨(M : Int), (B : Int)⟩ =
        some (⟨false, none, []⟩,
          oomKillBlocks ((M / B + 1 : Nat) : Int) ((M % B : Nat) : Int)
            (B : Int)) := by
      rw [hread]
      simp only [if_pos hpos]
    have hnb1 : (1 : Int) ≤ ((M / B + 1 : Nat) : Int) := by
      have h5 : 1 ≤ M / B + 1 := Nat.succ_le_succ (Nat.zero_le _)
      exact_mod_cast h5
    have hndvd : ¬((B : Int) ∣ (M : Int)) := fun hc =>
      hrem (Nat.dvd_iff_mod_eq_zero.mp (Int.natCast_dvd_natCast.mp hc))
    refine ⟨_, _, hread1, rfl, ?_, ?_, ?_⟩
    · -- block count = ceiling
      rw [oomKillBlocks_count]
      simp only [Int.toNat_natCast]
      rw [ceil_div_plan M B hM1 hB1, if_neg hrem]
    · -- lengths sum to m
      rw [oomKillBlocks_lengths _ _ _ hnb1, List.sum_append, List.sum_replicate,
        smul_eq_mul]
      simp only [Int.toNat_natCast, List.sum_cons, List.sum_nil, Nat.add_zero,
        Nat.add_sub_cancel]
      have e6 : M / B * B = B * (M / B) := Nat.mul_comm _ _
      omega
    · -- all-but-last full, last is the remainder, no divisibility
      rw [oomKillBlocks_lengths _ _ _ hnb1, oomKillBlocks_count, if_neg hndvd,
        hmod]
      try simp only [Int.toNat_natCast, Nat.add_sub_cancel]

/-- Witness for C8 at `memory = 7`, `block_size = 3`: three blocks of
sizes 3, 3, 1. -/
theorem oomKill_allocates_ceil_blocks_witness :
    ∃ r blocks,
      oomKillDataSourceRead true ⟨7, 3⟩ = some (r, blocks) ∧
      r.hasError = false ∧
      blocks.length = ((7 : Int).toNat + (3 : Int).toNat - 1) / (3 : Int).toNat ∧
      (blocks.map List.length).sum = (7 : Int).toNat ∧
      blocks.map List.length =
        List.replicate (blocks.length - 1) (3 : Int).toNat ++
          [if (3 : Int) ∣ 7 then (3 : Int).toNat else ((7 : Int) % 3).toNat] :=
  oomKill_allocates_ceil_blocks 7 3 (by norm_num) (by norm_num)

/-! ## C9: the plan-artifact chunked write loop -/

/-- A chunk written while data remains is positive. -/
theorem chunkBytes_pos (n w : Int) (h : w < n) : 0 < chunkBytes n w := by
  unfold chunkBytes planArtifactChunkSize
  split <;> omega

/-- A chunk never exceeds 64 KiB. -/
theorem chunkBytes_le (n w : Int) : chunkBytes n w ≤ 65536 := by
  unfold chunkBytes planArtifactChunkSize
  split <;> omega

/-- A chunk never exceeds the remaining bytes. -/
theorem chunkBytes_le_rem (n w : Int) (_h : w < n) : chunkBytes n w ≤ n - w := by
  unfold chunkBytes planArtifactChunkSize
  split <;> omega

/-- With no write failure, the loop completes, its chunks sum to the
remaining byte count, and every chunk is between 1 and 65536 bytes. -/
theorem writeLoop_none_spec (n : Int) : ∀ (k : Nat) (written : Int) (i : Nat),
    (n - written).toNat = k → written < n →
    ∃ chunks, planArtifactWriteLoop n none written i = (chunks, true) ∧
      chunks.sum = n - written ∧ ∀ c ∈ chunks, 0 < c ∧ c ≤ 65536 := by
  intro k
  induction k using Nat.strong_induction_on with
  | _ k ih =>
    intro written i hk hw
    have hpos := chunkBytes_pos n written hw
    have hle := chunkBytes_le n written
    have hrem := chunkBytes_le_rem n written hw
    by_cases h2 : written + chunkBytes n written < n
    · obtain ⟨chunks, hcall, hsum, hb⟩ :=
        ih ((n - (written + chunkBytes n written)).toNat) (by omega)
          (written + chunkBytes n written) (i + 1) rfl h2
      refine ⟨chunkBytes n written :: chunks, ?_, ?_, ?_⟩
      · rw [planArtifactWriteLoop, dif_pos hw, if_neg (by simp), hcall]
      · simp only [List.sum_cons]
        omega
      · intro c hc
        rcases List.mem_cons.mp hc with rfl | hc'
        · exact ⟨hpos, hle⟩
        · exact hb c hc'
    · refine ⟨[chunkBytes n written], ?_, ?_, ?_⟩
      · rw [planArtifactWriteLoop, dif_pos hw, if_neg (by simp),
          planArtifactWriteLoop, dif_neg h2]
      · simp only [List.sum_cons, List.sum_nil]
        omega
      · intro c hc
        rcases List.mem_cons.mp hc with rfl | hc'
        · exact ⟨hpos, hle⟩
        · cases hc'

/-- C9: for a requested `file_size = n > 0`, when the named file does
not already exist and neither the random generator nor any write fails,
the chunked write loop terminates having written exactly `n` bytes —
each iteration writing at least 1 and at most 65536 bytes — and the
`file_size` stored in the response state equals `n`. -/
theorem planArtifact_writes_exact_bytes (n : Int) (hn : 0 < n)
    (sha256 : List Nat → List Nat) (base : String → String) (fn : String)
    (openOk : Bool) (ec : Option (List Nat)) (bytes : List Nat) :
    ∃ chunks,
      planArtifactWriteLoop n none 0 0 = (chunks, true) ∧
      chunks.sum = n ∧
      (∀ c ∈ chunks, 0 < c ∧ c ≤ 65536) ∧
      ∃ model,
        planArtifactDataSourceRead sha256 base true n fn
            ⟨.errNotExist, openOk, ec, true, none, true, some bytes⟩ =
          ⟨false, some model,
            Effect.fileCreate fn :: chunks.map (Effect.fileWrite fn)⟩ ∧
        model.fileSize = n := by
  obtain ⟨chunks, hloop, hsum, hb⟩ :=
    writeLoop_none_spec n (n - 0).toNat 0 0 rfl (by omega)
  have hsum' : chunks.sum = n := by omega
  refine ⟨chunks, hloop, hsum', hb, ?_⟩
  refine ⟨{ fileSize := chunks.sum, fileName := base fn,
            id := hexEncode (sha256 bytes) }, ?_, hsum'⟩
  simp only [planArtifactDataSourceRead, Bool.not_true, Bool.false_eq_true,
    if_false, hloop, ite_false]
  rw [if_neg (by omega)]
  try simp

/-- Witness for C9 at `file_size = 3`: a single 3-byte chunk. -/
theorem planArtifact_writes_exact_bytes_witness :
    ∃ chunks,
      planArtifactWriteLoop 3 none 0 0 = (chunks, true) ∧
      chunks.sum = 3 ∧
      (∀ c ∈ chunks, 0 < c ∧ c ≤ 65536) ∧
      ∃ model,
        planArtifactDataSourceRead (fun _ => []) (fun s => s) true 3 "f"
            ⟨.errNotExist, true, none, true, none, true, some []⟩ =
          ⟨false, some model,
            Effect.fileCreate "f" :: chunks.map (Effect.fileWrite "f")⟩ ∧
        model.fileSize = 3 :=
  planArtifact_writes_exact_bytes 3 (by norm_num) (fun _ => []) (fun s => s)
    "f" true none []

/-! ## C10: the three file-content views agree -/

/-- Decoding inverts encoding on every sextet value. -/
theorem base64DecodeChar_encodeChar_fin :
    ∀ s : Fin 64, base64DecodeChar (base64EncodeChar s.val) = some s.val := by
  decide

/-- Decoding inverts encoding on sextet values. -/
theorem base64DecodeChar_encodeChar (s : Nat) (h : s < 64) :
    base64DecodeChar (base64EncodeChar s) = some s :=
  base64DecodeChar_encodeChar_fin ⟨s, h⟩

/-- No sextet encodes to the padding character. -/
theorem base64EncodeChar_ne_pad_fin :
    ∀ s : Fin 64, base64EncodeChar s.val ≠ '=' := by
  decide

/-- No sextet encodes to the padding character. -/
theorem base64EncodeChar_ne_pad (s : Nat) (h : s < 64) :
    base64EncodeChar s ≠ '=' :=
  base64EncodeChar_ne_pad_fin ⟨s, h⟩

/-- base64 decoding inverts base64 encoding on byte sequences. -/
theorem base64Decode_encode (l : List Nat) (h : ∀ b ∈ l, b < 256) :
    base64Decode (base64Encode l) = some l := by
  induction l using base64Encode.induct with
  | case1 => rfl
  | case2 a =>
    have ha : a < 256 := h a (by simp)
    rw [base64Encode, base64Decode]
    simp only [base64DecodeChar_encodeChar (a / 4) (by omega),
      base64DecodeChar_encodeChar (a % 4 * 16) (by omega)]
    simp only [and_self, ite_true, if_pos, Option.some.injEq, List.cons.injEq,
      and_true]
    omega
  | case3 a b =>
    have ha : a < 256 := h a (by simp)
    have hb : b < 256 := h b (by simp)
    have hpad1 : ¬(base64EncodeChar (b % 16 * 4) = '=') :=
      base64EncodeChar_ne_pad _ (by omega)
    rw [base64Encode, base64Decode]
    simp only [base64DecodeChar_encodeChar (a / 4) (by omega),
      base64DecodeChar_encodeChar (a % 4 * 16 + b / 16) (by omega),
      base64DecodeChar_encodeChar (b % 16 * 4) (by omega)]
    simp only [hpad1, false_and, ite_false, and_self, ite_true, if_pos,
      Option.some.injEq, List.cons.injEq, and_true]
    constructor
    · omega
    · omega
  | case4 a b c rest ih =>
    have ha : a < 256 := h a (by simp)
    have hb : b < 256 := h b (by simp)
    have hc : c < 256 := h c (by simp)
    have hrest : ∀ x ∈ rest, x < 256 := fun x hx => h x (by simp [hx])
    have hpad1 : ¬(base64EncodeChar (b % 16 * 4 + c / 64) = '=') :=
      base64EncodeChar_ne_pad _ (by omega)
    have hpad2 : ¬(base64EncodeChar (c % 64) = '=') :=
      base64EncodeChar_ne_pad _ (by omega)
    rw [base64Encode, base64Decode]
    simp only [base64DecodeChar_encodeChar (a / 4) (by omega),
      base64DecodeChar_encodeChar (a % 4 * 16 + b / 16) (by omega),
      base64DecodeChar_encodeChar (b % 16 * 4 + c / 64) (by omega),
      base64DecodeChar_encodeChar (c % 64) (by omega), ih hrest]
    simp only [hpad1, hpad2, false_and, ite_false, Option.some.injEq,
      List.cons.injEq, and_true]
    refine ⟨by omega, by omega, by omega⟩

/-- Every hex digit the encoder can emit for a nibble is one of the
sixteen lowercase digits. -/
theorem hexDigits_getD_mem_fin :
    ∀ i : Fin 16, hexDigits.getD i.val '0' ∈ hexDigits := by
  decide

/-- Nibble decoding inverts nibble encoding. -/
theorem hexDecodeNibble_encode_fin :
    ∀ i : Fin 16,
      hexDigits.findIdx? (fun x => x = hexDigits.getD i.val '0') = some i.val := by
  decide

/-- hex decoding inverts hex encoding on byte sequences. -/
theorem hexDecode_encode (l : List Nat) (h : ∀ b ∈ l, b < 256) :
    hexDecode (hexEncode l) = some l := by
  induction l with
  | nil => rfl
  | cons b rest ih =>
    have hb : b < 256 := h b (by simp)
    have hrest : ∀ x ∈ rest, x < 256 := fun x hx => h x (by simp [hx])
    rw [hexEncode, hexDecode,
      hexDecodeNibble_encode_fin ⟨b / 16, by omega⟩,
      hexDecodeNibble_encode_fin ⟨b % 16, by omega⟩, ih hrest]
    simp only [Option.some.injEq, List.cons.injEq, and_true]
    omega

/-- Every character of a hex encoding of bytes is a lowercase hex
digit. -/
theorem hexEncode_chars_mem (l : List Nat) (h : ∀ b ∈ l, b < 256) :
    ∀ ch ∈ hexEncode l, ch ∈ hexDigits := by
  induction l with
  | nil => intro ch hch; cases hch
  | cons b rest ih =>
    have hb : b < 256 := h b (by simp)
    have hrest : ∀ x ∈ rest, x < 256 := fun x hx => h x (by simp [hx])
    intro ch hch
    rw [hexEncode] at hch
    rcases List.mem_cons.mp hch with rfl | hch'
    · exact hexDigits_getD_mem_fin ⟨b / 16, by omega⟩
    · rcases List.mem_cons.mp hch' with rfl | hch''
      · exact hexDigits_getD_mem_fin ⟨b % 16, by omega⟩
      · exact ih hrest ch hch''

/-- C10: on a successful file read the three computed attributes are
consistent views of the same byte sequence: base64-decoding
`content_base64` yields exactly the bytes stored in `content`, and
`content_sha256` is a lowercase-hex string that decodes to the SHA-256
digest of those same bytes. -/
theorem fileContent_consistent_views (sha256 : List Nat → List Nat)
    (filename : String) (size : Int) (bytes : List Nat)
    (hbytes : ∀ x ∈ bytes, x < 256)
    (hdigest : ∀ x ∈ sha256 bytes, x < 256) :
    ∃ model,
      fileContentDataSourceRead sha256 true filename (.okFile size)
          (some bytes) = ⟨false, some model, []⟩ ∧
      model.content = bytes ∧
      base64Decode model.contentBase64 = some model.content ∧
      hexDecode model.contentSHA256 = some (sha256 model.content) ∧
      ∀ ch ∈ model.contentSHA256, ch ∈ hexDigits := by
  refine ⟨{ filename := filename, content := bytes,
            contentBase64 := base64Encode bytes,
            contentSHA256 := hexEncode (sha256 bytes) }, rfl, rfl, ?_, ?_, ?_⟩
  · exact base64Decode_encode bytes hbytes
  · exact hexDecode_encode (sha256 bytes) hdigest
  · exact hexEncode_chars_mem (sha256 bytes) hdigest

/-- Witness for C10 with a 2-byte file and the identity digest
function. -/
theorem fileContent_consistent_views_witness :
    ∃ model,
      fileContentDataSourceRead (fun l => l) true "f"
          (StatResult.okFile 2) (some [0, 255]) = ⟨false, some model, []⟩ ∧
      model.content = [0, 255] ∧
      base64Decode model.contentBase64 = some model.content ∧
      hexDecode model.contentSHA256 = some ((fun (l : List Nat) => l) model.content) ∧
      ∀ ch ∈ model.contentSHA256, ch ∈ hexDigits :=
  fileContent_consistent_views (fun l => l) "f" 2 [0, 255] (by decide)
    (by decide)

end DebugProvider
